import Mathlib

/-!
Shallow embedding of the dispatch orchestrator of `aiogoogle`
(`src/aiogoogle/client.py`, class `Aiogoogle`).

The orchestrator is modelled as a state record; each method of the class
becomes a function from an environment of external collaborators and a
state to a triple `(result, new state, event trace)`.  Results are
`Except PyError _`, modelling Python exceptions.  The trace records the
externally visible effects: token-refresh round trips, session creation
and release, and requests handed to the transport.

The auth managers (`aiogoogle.auth.managers`), the transport session
(`aiogoogle.sessions`) and the resource builder (`aiogoogle.resource`)
are imported by `client.py` but their code is not part of this
repository snapshot; they are modelled from the specification, each such
definition carrying a doc comment that says so.
-/

namespace AioG

/-- OAuth2 user credentials (`aiogoogle.auth.creds.UserCreds`): access
token, optional refresh token, expiry timestamp, granted scopes, token
type. -/
structure UserCreds where
  access_token : String
  refresh_token : Option String
  expiry : Int
  scopes : List String
  token_type : String
deriving DecidableEq

/-- OAuth2 client credentials (`aiogoogle.auth.creds.ClientCreds`). -/
structure ClientCreds where
  client_id : String
  client_secret : String
  scopes : List String
deriving DecidableEq

/-- An outbound HTTP request descriptor (`aiogoogle.models.Request`). -/
structure Request where
  method : String
  url : String
  headers : List (String × String)
  query : List (String × String)
  body : String
deriving DecidableEq

/-- One entry of a discovery directory listing: the fields of an item
that `Aiogoogle.discover` reads (`name`, `version`) plus the `preferred`
flag the listing is filtered on. -/
structure DirectoryItem where
  name : String
  version : String
  preferred : Bool
deriving DecidableEq

/-- A transport response as seen by the orchestrator: raw body plus the
parsed `items` field that `Aiogoogle.discover` reads out of a discovery
directory listing (empty for non-listing responses). -/
structure Response where
  body : String
  items : List DirectoryItem
deriving DecidableEq

/-- Default response value, used when projecting the single response of
a one-request batch. -/
def dfltResponse : Response := { body := "", items := [] }

/-- The Python exceptions the embedded code can surface.
`missingCredentialsError` and `resolutionError` appear in the error
taxonomy of the documentation; they are included so that statements
about them can be written, the embedded code paths decide whether they
can actually occur. -/
inductive PyError where
  | typeError (msg : String)
  | valueError (msg : String)
  | transportError (msg : String)
  | authRefreshError
  | missingCredentialsError
  | resolutionError
deriving DecidableEq

/-- Externally visible effects of one orchestrator call. -/
inductive Event where
  /-- A token-endpoint round trip: `Oauth2Manager.refresh` called with
  the current user credentials and the configured client credentials. -/
  | refreshCall (uc : UserCreds) (cc : Option ClientCreds)
  /-- A transport handle was created (`__aenter__`). -/
  | sessionCreate (sid : Nat)
  /-- A transport handle was released (`__aexit__`). -/
  | sessionRelease (sid : Nat)
  /-- Request `r` was handed to the transport session `sid`. -/
  | sendReq (sid : Nat) (r : Request)
deriving DecidableEq

def isRefreshCall : Event → Bool
  | Event.refreshCall _ _ => true
  | _ => false

def isSessionCreate : Event → Bool
  | Event.sessionCreate _ => true
  | _ => false

def isSessionRelease : Event → Bool
  | Event.sessionRelease _ => true
  | _ => false

def isSendReq : Event → Bool
  | Event.sendReq _ _ => true
  | _ => false

/-- Modelled from the spec: the external collaborators of the
orchestrator, whose code (`aiogoogle.auth.managers.Oauth2Manager.refresh`
and the transport behind `aiogoogle.sessions`) is not in this
repository snapshot.  `now` is the current time used by the expiry
check; `refresh_result` is the outcome of the token-endpoint round trip
(`Except.ok` gives the new credentials, `Except.error` models an
`AuthRefreshError`); `send_result` is the transport outcome per request
(`Except.error` models a transport-level failure). -/
structure Env where
  now : Int
  refresh_result : UserCreds → Option ClientCreds → Except Unit UserCreds
  send_result : Request → Except String Response

/-- Modelled from the spec: `Oauth2Manager.is_expired` returns true
when the expiry timestamp has passed, with a safety margin of 60
seconds (tokens are treated as expired 60 seconds before actual
expiry). -/
def is_expired (now : Int) (uc : UserCreds) : Bool :=
  uc.expiry ≤ now + 60

/-- Modelled from the spec: `Oauth2Manager.authorize` sets an
`Authorization: Bearer <access_token>` header using the current access
token; it does not mutate or refresh the credential. -/
def oauth2_authorize (r : Request) (uc : UserCreds) : Request :=
  { r with headers := r.headers ++ [("Authorization", "Bearer " ++ uc.access_token)] }

/-- Modelled from the spec: `ApiKeyManager.authorize` appends the API
key as a query parameter.  An absent key is rendered the way Python
url-encodes `None`. -/
def apikey_authorize (r : Request) (key : Option String) : Request :=
  { r with query := r.query ++ [("key", key.getD "None")] }

/-- Modelled from the spec: the request built by
`discovery_service.apis.list(name=..., preffered=..., fields=...)` in
the resource builder, which is not in this snapshot.  The claims only
depend on this being an injective packaging of its arguments. -/
def discovery_list_request (name : String) (preffered : Option Bool)
    (fields : Option String) : Request :=
  { method := "GET"
    url := "https://www.googleapis.com/discovery/v1/apis"
    headers := []
    query := [("name", name),
              ("preferred", if preffered.getD false then "true" else "false")] ++
             (match fields with
              | some f => [("fields", f)]
              | none => [])
    body := "" }

/-- Modelled from the spec: the request built by
`discovery_service.apis.getRest(api=..., version=...)` in the resource
builder. -/
def discovery_getRest_request (api : String) (version : String) : Request :=
  { method := "GET"
    url := "https://www.googleapis.com/discovery/v1/apis/" ++ api ++
           "/" ++ version ++ "/rest"
    headers := []
    query := []
    body := "" }

/-- The object returned by `Aiogoogle.discover`
(`aiogoogle.resource.GoogleAPI`): it carries the fetched discovery
document and the validate flag. -/
structure GoogleAPI where
  discovery_document : Response
  validate : Bool
deriving DecidableEq

/-- The orchestrator state: the mutable instance fields of class
`Aiogoogle` that the embedded methods read or write.  The active
session is the id of the live transport handle; `next_sid` numbers the
handles the session factory produces, so that a fresh handle is never a
previously released one. -/
structure Aiogoogle where
  active_session : Option Nat
  next_sid : Nat
  api_key : Option String
  user_creds : Option UserCreds
  client_creds : Option ClientCreds
deriving DecidableEq

/-- Modelled from the spec: `session.send(*requests, ...)` hands each
request to the transport in input order and returns the responses in
the same order; the batch raises the first transport failure.  Emits
one `sendReq` event per request handed over, stopping at the first
failure. -/
def session_send (env : Env) (sid : Nat) (reqs : List Request) :
    Except PyError (List Response) × List Event :=
  match reqs with
  | [] => (Except.ok [], [])
  | r :: rest =>
    match env.send_result r with
    | Except.error msg =>
        (Except.error (PyError.transportError msg), [Event.sendReq sid r])
    | Except.ok resp =>
        let t := session_send env sid rest
        (t.1.map (fun rs => resp :: rs), Event.sendReq sid r :: t.2)

/-- `Aiogoogle.__aenter__`: creates a transport handle through the
session factory and stores it as the active session. -/
def aenter (s : Aiogoogle) : Aiogoogle × List Event :=
  ({ s with active_session := some s.next_sid, next_sid := s.next_sid + 1 },
   [Event.sessionCreate s.next_sid])

/-- `Aiogoogle.__aexit__`: releases the active session handle and
resets the active-session reference to `none`.  Calling it with no
active session would dereference `None` in Python. -/
def aexit (s : Aiogoogle) : Except PyError Unit × Aiogoogle × List Event :=
  match s.active_session with
  | none =>
      (Except.error (PyError.typeError "aexit called on NoneType session"), s, [])
  | some sid =>
      (Except.ok (), { s with active_session := none }, [Event.sessionRelease sid])

/-- `Aiogoogle.as_anon`: sends the requests through the active session
without touching them.  With no active session, the attribute access
`self.active_session.send` dereferences `None`. -/
def as_anon (env : Env) (s : Aiogoogle) (reqs : List Request)
    (timeout : Option Nat) (full_resp : Bool) :
    Except PyError (List Response) × Aiogoogle × List Event :=
  match s.active_session with
  | none =>
      (Except.error (PyError.typeError "send called on NoneType session"), s, [])
  | some sid =>
      let t := session_send env sid reqs
      (t.1, s, t.2)

/-- `Aiogoogle.as_api_key`: authorizes every request with the stored
API key, then sends the batch through the active session. -/
def as_api_key (env : Env) (s : Aiogoogle) (reqs : List Request)
    (timeout : Option Nat) (full_resp : Bool) :
    Except PyError (List Response) × Aiogoogle × List Event :=
  let authorized := reqs.map (fun r => apikey_authorize r s.api_key)
  match s.active_session with
  | none =>
      (Except.error (PyError.typeError "send called on NoneType session"), s, [])
  | some sid =>
      let t := session_send env sid authorized
      (t.1, s, t.2)

/-- `Aiogoogle.as_user`: when the stored user credentials are expired,
refreshes them and stores the refreshed value, then authorizes every
request with the stored credentials and sends the batch through the
active session.  With no user credentials configured,
`is_expired(None)` dereferences `None` inside the manager (there is no
credential-presence check in the method). -/
def as_user (env : Env) (s : Aiogoogle) (reqs : List Request)
    (timeout : Option Nat) (full_resp : Bool) :
    Except PyError (List Response) × Aiogoogle × List Event :=
  match s.user_creds with
  | none =>
      (Except.error (PyError.typeError "is_expired called on NoneType creds"), s, [])
  | some uc =>
    if is_expired env.now uc then
      match env.refresh_result uc s.client_creds with
      | Except.error _ =>
          (Except.error PyError.authRefreshError, s,
           [Event.refreshCall uc s.client_creds])
      | Except.ok newUc =>
          let s1 := { s with user_creds := some newUc }
          let authorized := reqs.map (fun r => oauth2_authorize r newUc)
          match s1.active_session with
          | none =>
              (Except.error (PyError.typeError "send called on NoneType session"),
               s1, [Event.refreshCall uc s.client_creds])
          | some sid =>
              let t := session_send env sid authorized
              (t.1, s1, Event.refreshCall uc s.client_creds :: t.2)
    else
      let authorized := reqs.map (fun r => oauth2_authorize r uc)
      match s.active_session with
      | none =>
          (Except.error (PyError.typeError "send called on NoneType session"), s, [])
      | some sid =>
          let t := session_send env sid authorized
          (t.1, s, t.2)

/-- `Aiogoogle.list_api`: builds the directory-list request, sends it
anonymously — wrapping the send in a scoped session when none is
active — and returns the single response. -/
def list_api (env : Env) (s : Aiogoogle) (name : String)
    (preffered : Option Bool) (fields : Option String) :
    Except PyError Response × Aiogoogle × List Event :=
  let request := discovery_list_request name preffered fields
  match s.active_session with
  | none =>
      let e := aenter s
      let b := as_anon env e.1 [request] none false
      let x := aexit b.2.1
      let res : Except PyError Response :=
        match x.1 with
        | Except.error err => Except.error err
        | Except.ok _ => b.1.map (fun rs => rs.headD dfltResponse)
      (res, x.2.1, e.2 ++ b.2.2 ++ x.2.2)
  | some _ =>
      let b := as_anon env s [request] none false
      (b.1.map (fun rs => rs.headD dfltResponse), b.2.1, b.2.2)

/-- The second half of `Aiogoogle.discover`: builds the `getRest`
request for a resolved name and version, sends it anonymously —
wrapping the send in a scoped session when none is active — and wraps
the fetched document in a `GoogleAPI`. -/
def discover_fetch (env : Env) (s : Aiogoogle) (api_name : String)
    (api_version : String) (validate : Bool) :
    Except PyError GoogleAPI × Aiogoogle × List Event :=
  let request := discovery_getRest_request api_name api_version
  match s.active_session with
  | none =>
      let e := aenter s
      let b := as_anon env e.1 [request] none false
      let x := aexit b.2.1
      let res : Except PyError GoogleAPI :=
        match x.1 with
        | Except.error err => Except.error err
        | Except.ok _ =>
            b.1.map (fun rs => { discovery_document := rs.headD dfltResponse,
                                 validate := validate })
      (res, x.2.1, e.2 ++ b.2.2 ++ x.2.2)
  | some _ =>
      let b := as_anon env s [request] none false
      (b.1.map (fun rs => { discovery_document := rs.headD dfltResponse,
                            validate := validate }),
       b.2.1, b.2.2)

/-- `Aiogoogle.discover`: with no explicit version, lists the APIs of
that name filtered to preferred versions, takes the name and version of
the first item, and raises `ValueError("Invalid API name")` when the
item list is empty; then fetches the discovery document. -/
def discover (env : Env) (s : Aiogoogle) (api_name : String)
    (api_version : Option String) (validate : Bool) :
    Except PyError GoogleAPI × Aiogoogle × List Event :=
  match api_version with
  | some v => discover_fetch env s api_name v validate
  | none =>
      let l := list_api env s api_name (some true) none
      match l.1 with
      | Except.error err => (Except.error err, l.2.1, l.2.2)
      | Except.ok dl =>
          match dl.items with
          | [] =>
              (Except.error (PyError.valueError "Invalid API name"), l.2.1, l.2.2)
          | item :: _ =>
              let f := discover_fetch env l.2.1 item.name item.version validate
              (f.1, f.2.1, l.2.2 ++ f.2.2)

/-- True when the embedded call raised a Python exception. -/
def resultIsError {α : Type} : Except PyError α → Bool
  | Except.error _ => true
  | Except.ok _ => false

/-! Concrete values used to exercise the embedded code on closed
inputs. -/

def reqW : Request :=
  { method := "GET", url := "https://example.test/one", headers := [], query := [], body := "" }

def reqW2 : Request :=
  { method := "POST", url := "https://example.test/two", headers := [], query := [], body := "b" }

def ucOld : UserCreds :=
  { access_token := "A1", refresh_token := some "R1", expiry := 0,
    scopes := ["s"], token_type := "Bearer" }

def ucNew : UserCreds :=
  { access_token := "A2", refresh_token := some "R1", expiry := 100000,
    scopes := ["s"], token_type := "Bearer" }

def ccW : ClientCreds :=
  { client_id := "C", client_secret := "S", scopes := ["s"] }

def respOf (r : Request) : Response :=
  { body := "resp " ++ r.url, items := [] }

/-- Environment where the refresh endpoint succeeds with `ucNew` and
every transport send succeeds. -/
def envW : Env :=
  { now := 1000,
    refresh_result := fun _ _ => Except.ok ucNew,
    send_result := fun r => Except.ok (respOf r) }

/-- Environment where the refresh endpoint fails. -/
def envB : Env :=
  { now := 1000,
    refresh_result := fun _ _ => Except.error (),
    send_result := fun r => Except.ok (respOf r) }

/-- Environment whose every response carries an empty directory
listing. -/
def envE : Env :=
  { now := 1000,
    refresh_result := fun _ _ => Except.ok ucNew,
    send_result := fun _ => Except.ok { body := "", items := [] } }

def itemY : DirectoryItem := { name := "youtube", version := "v3", preferred := true }

/-- Environment whose every response carries a one-item directory
listing. -/
def envY : Env :=
  { now := 1000,
    refresh_result := fun _ _ => Except.ok ucNew,
    send_result := fun _ => Except.ok { body := "", items := [itemY] } }

/-- Orchestrator state with an active session and an expired user
credential. -/
def sW : Aiogoogle :=
  { active_session := some 0, next_sid := 1, api_key := some "K",
    user_creds := some ucOld, client_creds := some ccW }

/-- Orchestrator state with no active session. -/
def s0 : Aiogoogle :=
  { active_session := none, next_sid := 0, api_key := some "K",
    user_creds := some ucNew, client_creds := some ccW }

/-- Orchestrator state with an active session and a still-valid user
credential. -/
def sFresh : Aiogoogle :=
  { active_session := some 0, next_sid := 1, api_key := some "K",
    user_creds := some ucNew, client_creds := some ccW }

/-- Orchestrator state with an active session and no user credential. -/
def sNoUser : Aiogoogle :=
  { active_session := some 0, next_sid := 1, api_key := some "K",
    user_creds := none, client_creds := some ccW }

/-- Orchestrator state with an active session, an expired user
credential and no client credential. -/
def sExpNoCC : Aiogoogle :=
  { active_session := some 0, next_sid := 1, api_key := none,
    user_creds := some ucOld, client_creds := none }

/-- Responses of `envW` to the two-request batch authorized with the
API key of `sFresh`. -/
def rsAW : List Response :=
  [respOf (apikey_authorize reqW (some "K")),
   respOf (apikey_authorize reqW2 (some "K"))]

/-- Responses of `envW` to the two-request batch authorized with the
user credential of `sFresh`. -/
def rsUW : List Response :=
  [respOf (oauth2_authorize reqW ucNew),
   respOf (oauth2_authorize reqW2 ucNew)]

/-! Helper lemmas about the transport model. -/

theorem except_map_error {ε α β : Type} (f : α → β) (e : ε) :
    Except.map f (Except.error e) = (Except.error e : Except ε β) := rfl

theorem except_map_ok {ε α β : Type} (f : α → β) (a : α) :
    Except.map f (Except.ok a) = (Except.ok (f a) : Except ε β) := rfl

theorem session_send_mem_events (env : Env) (sid : Nat) :
    ∀ (l : List Request), ∀ e ∈ (session_send env sid l).2,
      ∃ r ∈ l, e = Event.sendReq sid r := by
  intro l
  induction l with
  | nil => intro e he; simp [session_send] at he
  | cons r rest ih =>
    intro e he
    cases h : env.send_result r with
    | error msg =>
      simp [session_send, h] at he
      exact ⟨r, List.mem_cons_self r rest, he⟩
    | ok resp =>
      simp [session_send, h] at he
      rcases he with he | he
      · exact ⟨r, List.mem_cons_self r rest, he⟩
      · rcases ih e he with ⟨r0, hr0, he0⟩
        exact ⟨r0, List.mem_cons_of_mem r hr0, he0⟩

theorem session_send_no_refresh (env : Env) (sid : Nat) (l : List Request) :
    (session_send env sid l).2.countP isRefreshCall = 0 := by
  rw [List.countP_eq_zero]
  intro e he
  rcases session_send_mem_events env sid l e he with ⟨r, _, rfl⟩
  simp [isRefreshCall]

theorem session_send_not_missing (env : Env) (sid : Nat) :
    ∀ (l : List Request),
      (session_send env sid l).1 ≠ Except.error PyError.missingCredentialsError := by
  intro l
  induction l with
  | nil => simp [session_send]
  | cons r rest ih =>
    cases h : env.send_result r with
    | error msg => simp [session_send, h]
    | ok resp =>
      simp only [session_send, h]
      cases ht : (session_send env sid rest).1 with
      | error e =>
        rw [ht] at ih
        intro hc
        simp [Except.map] at hc
        exact ih (congrArg Except.error hc)
      | ok rs0 =>
        intro hc
        simp [Except.map, ht] at hc

theorem session_send_ok_spec (env : Env) (sid : Nat) :
    ∀ (l : List Request) (rs : List Response),
      (session_send env sid l).1 = Except.ok rs →
      rs.length = l.length ∧
      ∀ i (h1 : i < l.length) (h2 : i < rs.length),
        env.send_result l[i] = Except.ok rs[i] := by
  intro l
  induction l with
  | nil =>
    intro rs h
    simp [session_send] at h
    subst h
    exact ⟨rfl, by intro i h1 h2; exact absurd h1 (Nat.not_lt_zero i)⟩
  | cons r rest ih =>
    intro rs h
    cases hr : env.send_result r with
    | error msg => simp [session_send, hr] at h
    | ok resp =>
      simp only [session_send, hr] at h
      cases ht : (session_send env sid rest).1 with
      | error e => rw [ht] at h; simp [Except.map] at h
      | ok rs0 =>
        rw [ht] at h
        simp [Except.map] at h
        subst h
        obtain ⟨hlen, hpt⟩ := ih rs0 ht
        refine ⟨by simp [hlen], ?_⟩
        intro i h1 h2
        cases i with
        | zero => simpa using hr
        | succ j =>
          have hj1 : j < rest.length := Nat.lt_of_succ_lt_succ h1
          have hj2 : j < rs0.length := Nat.lt_of_succ_lt_succ h2
          simpa using hpt j hj1 hj2

theorem as_anon_state (env : Env) (s : Aiogoogle) (reqs : List Request)
    (t : Option Nat) (f : Bool) : (as_anon env s reqs t f).2.1 = s := by
  cases hs : s.active_session <;> simp [as_anon, hs]

theorem as_anon_events (env : Env) (s : Aiogoogle) (sid : Nat)
    (reqs : List Request) (t : Option Nat) (f : Bool)
    (hs : s.active_session = some sid) :
    ∀ e ∈ (as_anon env s reqs t f).2.2, ∃ r, e = Event.sendReq sid r := by
  simp only [as_anon, hs]
  intro e he
  rcases session_send_mem_events env sid reqs e he with ⟨r, _, rfl⟩
  exact ⟨r, rfl⟩

/-- C1: for user credentials whose expiry has passed (`is_expired` is
true), `as_user` triggers exactly one refresh call, placed before any
request of the batch is handed to the transport, and the stored user
credential is replaced with the refreshed value, which is the one every
sent request is authorized with. -/
theorem as_user_expired_refreshes_once (env : Env) (s : Aiogoogle)
    (uc newUc : UserCreds) (sid : Nat) (reqs : List Request)
    (t : Option Nat) (f : Bool)
    (hu : s.user_creds = some uc)
    (he : is_expired env.now uc = true)
    (hr : env.refresh_result uc s.client_creds = Except.ok newUc)
    (hs : s.active_session = some sid) :
    (as_user env s reqs t f).2.2.countP isRefreshCall = 1 ∧
    (as_user env s reqs t f).2.2.head? =
      some (Event.refreshCall uc s.client_creds) ∧
    (as_user env s reqs t f).2.1.user_creds = some newUc ∧
    ∀ e ∈ (as_user env s reqs t f).2.2, isSendReq e = true →
      ∃ r ∈ reqs, e = Event.sendReq sid (oauth2_authorize r newUc) := by
  have key : as_user env s reqs t f =
      ((session_send env sid (reqs.map fun r => oauth2_authorize r newUc)).1,
       { s with user_creds := some newUc },
       Event.refreshCall uc s.client_creds ::
         (session_send env sid (reqs.map fun r => oauth2_authorize r newUc)).2) := by
    simp [as_user, hu, he, hr, hs]
  rw [key]
  refine ⟨?_, rfl, rfl, ?_⟩
  · simp [List.countP_cons, isRefreshCall, session_send_no_refresh]
  · intro e he2 hsend
    rcases List.mem_cons.mp he2 with h1 | h2
    · subst h1; simp [isSendReq] at hsend
    · rcases session_send_mem_events env sid _ e h2 with ⟨r0, hr0, rfl⟩
      rcases List.mem_map.mp hr0 with ⟨a, ha, rfl⟩
      exact ⟨a, ha, rfl⟩

theorem as_user_expired_refreshes_once_witness :
    (as_user envW sW [reqW] none false).2.2.countP isRefreshCall = 1 ∧
    (as_user envW sW [reqW] none false).2.2.head? =
      some (Event.refreshCall ucOld (some ccW)) ∧
    (as_user envW sW [reqW] none false).2.1.user_creds = some ucNew := by
  have h := as_user_expired_refreshes_once envW sW ucOld ucNew 0 [reqW] none false
    rfl (by decide) rfl rfl
  exact ⟨h.1, h.2.1, h.2.2.1⟩

/-- C3 counterexample: with no user credential configured, `as_user`
does fail before any network call, but with the `None`-dereference of
`is_expired(self.user_creds)`, not with `MissingCredentialsError` — the
method has no credential-presence check. -/
theorem as_user_no_creds_cex :
    (as_user envW sNoUser [reqW] none false).1 =
      Except.error (PyError.typeError "is_expired called on NoneType creds") ∧
    (as_user envW sNoUser [reqW] none false).1 ≠
      Except.error PyError.missingCredentialsError ∧
    (as_user envW sNoUser [reqW] none false).2.2 = [] := by
  refine ⟨rfl, ?_, rfl⟩
  intro h
  exact PyError.noConfusion (Except.error.inj h)

/-- C3 (amended): with no user credential configured, `as_user` fails
before any network call — the trace is empty and the state untouched —
but the failure is a type error from evaluating `is_expired` on the
absent credential, not `MissingCredentialsError`. -/
theorem as_user_no_creds_type_error (env : Env) (s : Aiogoogle)
    (reqs : List Request) (t : Option Nat) (f : Bool)
    (hu : s.user_creds = none) :
    as_user env s reqs t f =
      (Except.error (PyError.typeError "is_expired called on NoneType creds"),
       s, []) := by
  simp [as_user, hu]

theorem as_user_no_creds_type_error_witness :
    as_user envW sNoUser [reqW] none false =
      (Except.error (PyError.typeError "is_expired called on NoneType creds"),
       sNoUser, []) :=
  as_user_no_creds_type_error envW sNoUser [reqW] none false rfl

/-- C4 counterexample: with an expired user credential and no client
credential, `as_user` does attempt the refresh — the trace records the
refresh call carrying `none` as client credentials — instead of raising
`MissingCredentialsError`; here the refresh fails and the call
surfaces `AuthRefreshError`. -/
theorem as_user_expired_no_client_cex :
    (as_user envB sExpNoCC [reqW] none false).2.2 =
      [Event.refreshCall ucOld none] ∧
    (as_user envB sExpNoCC [reqW] none false).1 =
      Except.error PyError.authRefreshError := ⟨rfl, rfl⟩

/-- C4 (amended): with an expired user credential and no client
credential, `as_user` attempts exactly one refresh, passing the absent
client credential to the refresh operation, and never raises
`MissingCredentialsError`. -/
theorem as_user_expired_no_client_attempts_refresh (env : Env) (s : Aiogoogle)
    (uc : UserCreds) (reqs : List Request) (t : Option Nat) (f : Bool)
    (hu : s.user_creds = some uc)
    (he : is_expired env.now uc = true)
    (hc : s.client_creds = none) :
    (as_user env s reqs t f).2.2.head? = some (Event.refreshCall uc none) ∧
    (as_user env s reqs t f).2.2.countP isRefreshCall = 1 ∧
    (as_user env s reqs t f).1 ≠ Except.error PyError.missingCredentialsError := by
  cases hr : env.refresh_result uc none with
  | error u =>
    refine ⟨?_, ?_, ?_⟩ <;>
      simp [as_user, hu, he, hc, hr, isRefreshCall, List.countP_cons]
  | ok newUc =>
    cases hs2 : s.active_session with
    | none =>
      refine ⟨?_, ?_, ?_⟩ <;>
        simp [as_user, hu, he, hc, hr, hs2, isRefreshCall, List.countP_cons]
    | some sid =>
      have key : as_user env s reqs t f =
          ((session_send env sid (reqs.map fun r => oauth2_authorize r newUc)).1,
           { s with user_creds := some newUc },
           Event.refreshCall uc none ::
             (session_send env sid (reqs.map fun r => oauth2_authorize r newUc)).2) := by
        simp [as_user, hu, he, hc, hr, hs2]
      rw [key]
      refine ⟨rfl, ?_, ?_⟩
      · simp [List.countP_cons, isRefreshCall, session_send_no_refresh]
      · exact session_send_not_missing env sid _

theorem as_user_expired_no_client_witness :
    (as_user envB sExpNoCC [reqW] none false).2.2.head? =
      some (Event.refreshCall ucOld none) ∧
    (as_user envB sExpNoCC [reqW] none false).2.2.countP isRefreshCall = 1 ∧
    (as_user envB sExpNoCC [reqW] none false).1 ≠
      Except.error PyError.missingCredentialsError :=
  as_user_expired_no_client_attempts_refresh envB sExpNoCC ucOld [reqW] none false
    rfl (by decide) rfl

/-- C5: for user credentials whose expiry is still in the future
(`is_expired` is false), `as_user` triggers zero refresh calls. -/
theorem as_user_not_expired_no_refresh (env : Env) (s : Aiogoogle)
    (uc : UserCreds) (reqs : List Request) (t : Option Nat) (f : Bool)
    (hu : s.user_creds = some uc)
    (he : is_expired env.now uc = false) :
    (as_user env s reqs t f).2.2.countP isRefreshCall = 0 := by
  cases hs : s.active_session with
  | none => simp [as_user, hu, he, hs]
  | some sid =>
    have h := session_send_no_refresh env sid (reqs.map fun r => oauth2_authorize r uc)
    simpa [as_user, hu, he, hs] using h

theorem as_user_not_expired_no_refresh_witness :
    (as_user envW sFresh [reqW] none false).2.2.countP isRefreshCall = 0 :=
  as_user_not_expired_no_refresh envW sFresh ucNew [reqW] none false rfl (by decide)

/-- C7: `as_api_key` never triggers a token-refresh round trip,
whatever OAuth2 user or client credentials are configured. -/
theorem as_api_key_never_refreshes (env : Env) (s : Aiogoogle)
    (reqs : List Request) (t : Option Nat) (f : Bool) :
    (as_api_key env s reqs t f).2.2.countP isRefreshCall = 0 := by
  cases hs : s.active_session with
  | none => simp [as_api_key, hs]
  | some sid =>
    have h := session_send_no_refresh env sid (reqs.map fun r => apikey_authorize r s.api_key)
    simpa [as_api_key, hs] using h

/-- C2 counterexample: `as_anon` called with no active session does not
create a session — the trace is empty — and the call fails with the
`None`-dereference of `self.active_session.send`. -/
theorem as_anon_no_autosession_cex :
    (as_anon envW s0 [reqW] none false).1 =
      Except.error (PyError.typeError "send called on NoneType session") ∧
    (as_anon envW s0 [reqW] none false).2.2 = [] := ⟨rfl, rfl⟩

/-- C2 (amended): the dispatch methods `as_user`, `as_api_key` and
`as_anon` do not auto-acquire a session: called with no active session
they fail with an error before any request is handed to the transport,
create no session, and leave the active-session reference `none`; only
the wrapper `list_api` (and `discover`) transparently acquires and
releases a session, ending with the reference `none` again. -/
theorem dispatch_requires_active_session (env : Env) (s : Aiogoogle)
    (reqs : List Request) (t : Option Nat) (f : Bool)
    (name : String) (p : Option Bool) (fl : Option String)
    (hs : s.active_session = none) :
    (resultIsError (as_anon env s reqs t f).1 = true ∧
      (as_anon env s reqs t f).2.1.active_session = none ∧
      (as_anon env s reqs t f).2.2.countP isSessionCreate = 0 ∧
      (as_anon env s reqs t f).2.2.countP isSendReq = 0) ∧
    (resultIsError (as_api_key env s reqs t f).1 = true ∧
      (as_api_key env s reqs t f).2.1.active_session = none ∧
      (as_api_key env s reqs t f).2.2.countP isSessionCreate = 0 ∧
      (as_api_key env s reqs t f).2.2.countP isSendReq = 0) ∧
    (resultIsError (as_user env s reqs t f).1 = true ∧
      (as_user env s reqs t f).2.1.active_session = none ∧
      (as_user env s reqs t f).2.2.countP isSessionCreate = 0 ∧
      (as_user env s reqs t f).2.2.countP isSendReq = 0) ∧
    (list_api env s name p fl).2.1.active_session = none := by
  refine ⟨?_, ?_, ?_, ?_⟩
  · simp [as_anon, hs, resultIsError]
  · simp [as_api_key, hs, resultIsError]
  · cases hu : s.user_creds with
    | none => simp [as_user, hu, hs, resultIsError]
    | some uc =>
      cases he : is_expired env.now uc with
      | false => simp [as_user, hu, he, hs, resultIsError]
      | true =>
        cases hr : env.refresh_result uc s.client_creds with
        | error u =>
          simp [as_user, hu, he, hr, hs, resultIsError, isSessionCreate, isSendReq,
                List.countP_cons]
        | ok newUc =>
          simp [as_user, hu, he, hr, hs, resultIsError, isSessionCreate, isSendReq,
                List.countP_cons]
  · cases hr : env.send_result (discovery_list_request name p fl) with
    | error msg => simp [list_api, hs, aenter, as_anon, session_send, aexit, hr]
    | ok resp => simp [list_api, hs, aenter, as_anon, session_send, aexit, hr]

theorem dispatch_requires_active_session_witness :
    resultIsError (as_anon envW s0 [reqW] none false).1 = true ∧
    resultIsError (as_api_key envW s0 [reqW] none false).1 = true ∧
    resultIsError (as_user envW s0 [reqW] none false).1 = true ∧
    (list_api envW s0 "youtube" (some true) none).2.1.active_session = none := by
  have h := dispatch_requires_active_session envW s0 [reqW] none false
    "youtube" (some true) none rfl
  exact ⟨h.1.1, h.2.1.1, h.2.2.1.1, h.2.2.2⟩

/-- C6: one dispatch call authorizes the requests in input order and,
when it returns successfully, returns as many responses as requests,
the i-th response being the response of the transport to the i-th
authorized request — shown for `as_api_key` and for `as_user` with a
still-valid credential. -/
theorem dispatch_returns_responses_in_order (env : Env) (s : Aiogoogle)
    (sid : Nat) (reqs : List Request) (t : Option Nat) (f : Bool)
    (rsA rsU : List Response) (uc : UserCreds)
    (hs : s.active_session = some sid)
    (hA : (as_api_key env s reqs t f).1 = Except.ok rsA)
    (hu : s.user_creds = some uc)
    (he : is_expired env.now uc = false)
    (hU : (as_user env s reqs t f).1 = Except.ok rsU) :
    (rsA.length = reqs.length ∧
      ∀ i (h1 : i < reqs.length) (h2 : i < rsA.length),
        env.send_result (apikey_authorize reqs[i] s.api_key) = Except.ok rsA[i]) ∧
    (rsU.length = reqs.length ∧
      ∀ i (h1 : i < reqs.length) (h2 : i < rsU.length),
        env.send_result (oauth2_authorize reqs[i] uc) = Except.ok rsU[i]) := by
  have hA2 : (session_send env sid (reqs.map fun r => apikey_authorize r s.api_key)).1 =
      Except.ok rsA := by simpa [as_api_key, hs] using hA
  have hU2 : (session_send env sid (reqs.map fun r => oauth2_authorize r uc)).1 =
      Except.ok rsU := by simpa [as_user, hu, he, hs] using hU
  obtain ⟨hAl, hAp⟩ := session_send_ok_spec env sid _ rsA hA2
  obtain ⟨hUl, hUp⟩ := session_send_ok_spec env sid _ rsU hU2
  constructor
  · refine ⟨by simpa using hAl, ?_⟩
    intro i h1 h2
    have h1m : i < (reqs.map fun r => apikey_authorize r s.api_key).length := by
      simpa using h1
    have h := hAp i h1m h2
    simpa [List.getElem_map] using h
  · refine ⟨by simpa using hUl, ?_⟩
    intro i h1 h2
    have h1m : i < (reqs.map fun r => oauth2_authorize r uc).length := by
      simpa using h1
    have h := hUp i h1m h2
    simpa [List.getElem_map] using h

theorem dispatch_returns_responses_in_order_witness :
    rsAW.length = [reqW, reqW2].length ∧ rsUW.length = [reqW, reqW2].length := by
  have h := dispatch_returns_responses_in_order envW sFresh 0 [reqW, reqW2]
    none false rsAW rsUW ucNew rfl rfl rfl (by decide) rfl
  exact ⟨h.1.1, h.2.1⟩

/-- C8 counterexample: when the preferred-filtered listing comes back
with no items, `discover` with no explicit version raises
`ValueError("Invalid API name")`, not a `ResolutionError`. -/
theorem discover_value_error_cex :
    (discover envE sW "youtube" none true).1 =
      Except.error (PyError.valueError "Invalid API name") ∧
    (discover envE sW "youtube" none true).1 ≠
      Except.error PyError.resolutionError := by
  refine ⟨rfl, ?_⟩
  intro h
  exact PyError.noConfusion (Except.error.inj h)

/-- C8 (amended): `discover` with no explicit version first sends the
list request filtered to preferred versions; when the listing has a
first item it then fetches the discovery document under that item's
name and version, and when the listing is empty it fails — with
`ValueError("Invalid API name")`, not `ResolutionError`. -/
theorem discover_auto_version_resolution (env : Env) (s : Aiogoogle)
    (sid : Nat) (api_name : String) (resp : Response) (validate : Bool)
    (hs : s.active_session = some sid)
    (hresp : env.send_result (discovery_list_request api_name (some true) none) =
      Except.ok resp) :
    (resp.items = [] →
      (discover env s api_name none validate).1 =
        Except.error (PyError.valueError "Invalid API name")) ∧
    ∀ item rest, resp.items = item :: rest →
      (discover env s api_name none validate).2.2 =
        [Event.sendReq sid (discovery_list_request api_name (some true) none),
         Event.sendReq sid (discovery_getRest_request item.name item.version)] := by
  have hl : list_api env s api_name (some true) none =
      (Except.ok resp, s,
       [Event.sendReq sid (discovery_list_request api_name (some true) none)]) := by
    simp [list_api, hs, as_anon, session_send, hresp, except_map_ok, dfltResponse]
  constructor
  · intro hempty
    simp [discover, hl, hempty]
  · intro item rest hitems
    cases hg : env.send_result (discovery_getRest_request item.name item.version) with
    | error msg =>
      simp [discover, hl, hitems, discover_fetch, hs, as_anon, session_send, hg]
    | ok r2 =>
      simp [discover, hl, hitems, discover_fetch, hs, as_anon, session_send, hg]

theorem discover_auto_version_resolution_witness :
    (discover envY sW "youtube" none true).2.2 =
      [Event.sendReq 0 (discovery_list_request "youtube" (some true) none),
       Event.sendReq 0 (discovery_getRest_request "youtube" "v3")] := by
  have h := discover_auto_version_resolution envY sW 0 "youtube"
    { body := "", items := [itemY] } true rfl rfl
  exact h.2 itemY [] rfl

/-- C9: `__aexit__` releases the transport handle and resets the
active-session reference to `none`; and a scoped acquisition performed
by `list_api` around its send always ends released — the final state
holds no session and the trace ends with the release — whether the
transport send inside the scope succeeded or raised. -/
theorem aexit_releases_session (env : Env) (s s2 : Aiogoogle) (sid : Nat)
    (name : String) (p : Option Bool) (fl : Option String)
    (hsid : s.active_session = some sid)
    (hs2 : s2.active_session = none) :
    aexit s = (Except.ok (), { s with active_session := none },
               [Event.sessionRelease sid]) ∧
    (list_api env s2 name p fl).2.1.active_session = none ∧
    (list_api env s2 name p fl).2.2.getLast? =
      some (Event.sessionRelease s2.next_sid) := by
  refine ⟨by simp [aexit, hsid], ?_, ?_⟩ <;>
  · cases hr : env.send_result (discovery_list_request name p fl) with
    | error msg => simp [list_api, hs2, aenter, as_anon, session_send, aexit, hr]
    | ok resp => simp [list_api, hs2, aenter, as_anon, session_send, aexit, hr]

theorem aexit_releases_session_witness :
    aexit sW = (Except.ok (), { sW with active_session := none },
                [Event.sessionRelease 0]) ∧
    (list_api envW s0 "youtube" none none).2.1.active_session = none := by
  have h := aexit_releases_session envW sW s0 0 "youtube" none none rfl rfl
  exact ⟨h.1, h.2.1⟩

/-- C10: `list_api` and `discover` called while a session is active
send through that session and leave it active: the final state still
holds the same session and every event of the call is a send through
that session — no session is created or released. -/
theorem existing_session_reused (env : Env) (s : Aiogoogle) (sid : Nat)
    (name api_name : String) (p : Option Bool) (fl : Option String)
    (validate : Bool)
    (hs : s.active_session = some sid) :
    ((list_api env s name p fl).2.1.active_session = some sid ∧
      ∀ e ∈ (list_api env s name p fl).2.2, ∃ r, e = Event.sendReq sid r) ∧
    (discover env s api_name none validate).2.1.active_session = some sid ∧
    ∀ e ∈ (discover env s api_name none validate).2.2, ∃ r, e = Event.sendReq sid r := by
  refine ⟨⟨?_, ?_⟩, ?_, ?_⟩
  · simp [list_api, hs, as_anon_state]
  · intro e he
    have h2 : e ∈ (as_anon env s [discovery_list_request name p fl] none false).2.2 := by
      simpa [list_api, hs] using he
    exact as_anon_events env s sid _ none false hs e h2
  · cases hr : env.send_result (discovery_list_request api_name (some true) none) with
    | error msg =>
      simp [discover, list_api, hs, as_anon, session_send, hr, except_map_error]
    | ok resp =>
      cases hi : resp.items with
      | nil =>
        simp [discover, list_api, hs, as_anon, session_send, hr, hi, except_map_ok]
      | cons item rest =>
        cases hg : env.send_result (discovery_getRest_request item.name item.version) with
        | error m2 =>
          simp [discover, list_api, discover_fetch, hs, as_anon, session_send,
                hr, hi, hg, except_map_error, except_map_ok]
        | ok r2 =>
          simp [discover, list_api, discover_fetch, hs, as_anon, session_send,
                hr, hi, hg, except_map_error, except_map_ok]
  · intro e he
    cases hr : env.send_result (discovery_list_request api_name (some true) none) with
    | error msg =>
      have h3 : e = Event.sendReq sid (discovery_list_request api_name (some true) none) := by
        simpa [discover, list_api, hs, as_anon, session_send, hr,
               except_map_error] using he
      exact ⟨_, h3⟩
    | ok resp =>
      cases hi : resp.items with
      | nil =>
        have h3 : e = Event.sendReq sid (discovery_list_request api_name (some true) none) := by
          simpa [discover, list_api, hs, as_anon, session_send, hr, hi,
                 except_map_ok] using he
        exact ⟨_, h3⟩
      | cons item rest =>
        cases hg : env.send_result (discovery_getRest_request item.name item.version) with
        | error m2 =>
          have h3 := he
          simp [discover, list_api, discover_fetch, hs, as_anon, session_send,
                hr, hi, hg, except_map_error, except_map_ok] at h3
          rcases h3 with h3 | h3 <;> exact ⟨_, h3⟩
        | ok r2 =>
          have h3 := he
          simp [discover, list_api, discover_fetch, hs, as_anon, session_send,
                hr, hi, hg, except_map_error, except_map_ok] at h3
          rcases h3 with h3 | h3 <;> exact ⟨_, h3⟩

theorem existing_session_reused_witness :
    (list_api envW sW "youtube" (some true) none).2.1.active_session = some 0 ∧
    (discover envW sW "youtube" none true).2.1.active_session = some 0 := by
  have h := existing_session_reused envW sW 0 "youtube" "youtube" (some true) none
    true rfl
  exact ⟨h.1.1, h.2.1⟩

end AioG
